import Mathlib

/-!
Verification of the AuraSign orchestration server (the Node.js gateway in
`src/client/src/App.jsx`, second document: WebSocket server, RabbitMQ
dispatcher, Redis-backed aggregation barrier).

The embedding models the server's mutable state — the per-connection
WebSocket objects (with their `landmarkSequences` buffers and sent frames),
the `waitingClients` correlation map, the Redis store, and the log of bus
publications — as a record of function-valued maps, and each message
handler as a pure state transformer mirroring the source line by line.
Landmark samples are rationals (the server never computes with them, it
only passes them through, so exact rationals are a faithful carrier).
Redis key expiry (`expire`, 300 s TTL) is a timing effect outside the
handler logic and is not modelled; no claim below depends on expiry firing.
-/

namespace AuraSign

/-- One landmark vector, e.g. `[0.1, 0.2, 0.0, 1.0]`. -/
abbrev Sample := List ℚ

/-- One batch of landmark vectors: the `sequence` field of an append frame. -/
abbrev Batch := List Sample

/-- Identifier of a WebSocket connection object. -/
abbrev SessionId := Nat

/-- A Redis hash: field name to value, `none` when the field is absent. -/
abbrev RHash := String → Option String

/-- The Redis store: key to hash, `none` when the key is absent. -/
abbrev RStore := String → Option RHash

/-- The empty hash, what `hGetAll` returns for a missing key. -/
def emptyH : RHash := fun _ => none

/-- Set one field of a hash (Redis `HSET` on an existing key). -/
def hsetH (h : RHash) (f v : String) : RHash :=
  fun f' => if f' = f then some v else h f'

/-- Redis `HSET key field value`: creates the key when absent. -/
def hSet (s : RStore) (k f v : String) : RStore :=
  fun k' => if k' = k then some (hsetH ((s k).getD emptyH) f v) else s k'

/-- Redis `HGETALL key`: the stored hash, or the empty hash when absent. -/
def hGetAll (s : RStore) (k : String) : RHash := (s k).getD emptyH

/-- Redis `DEL key`. -/
def rdel (s : RStore) (k : String) : RStore :=
  fun k' => if k' = k then none else s k'

/-- JavaScript `v || d` on an optional string: `undefined` and the empty
string (the two falsy string cases) both fall back to the default. -/
def jsOrS (v : Option String) (d : String) : String :=
  match v with
  | none => d
  | some s => if s = "" then d else s

/-- Body of a message published to the bus. `recognitionJob` is the
`jobPayload` built in the `end_of_sentence` branch; `geminiJob` is the
`next_job_payload` built by the aggregation barrier. -/
inductive PublishBody where
  | recognitionJob (landmark_data : List Batch) (user_tone : String)
  | geminiJob (raw_gloss : String) (dominant_emotion : String) (user_tone : String)
deriving DecidableEq

/-- One `amqpChannel.publish` call: exchange, routing key, body, and the
`correlationId` / `replyTo` message properties. -/
structure Publication where
  exchange : String
  routingKey : String
  body : PublishBody
  correlationId : String
  replyTo : Option String
deriving DecidableEq

/-- A frame written to a client connection. `raw` is a verbatim
`client.send(msg.content.toString())` pass-through of a result message;
`fallback` is the structured dead-letter failure frame
`JSON.stringify` of fallbackText plus conversationTone. -/
inductive OutFrame where
  | raw (content : String)
  | fallback (fallbackText : String) (conversationTone : String)
deriving DecidableEq

/-- A WebSocket connection object: its `readyState === WebSocket.OPEN`
test, its `landmarkSequences` buffer, and the frames sent to it in order. -/
structure Conn where
  isOpen : Bool
  landmarkSequences : List Batch
  sent : List OutFrame
deriving DecidableEq

/-- The server's whole mutable state: the heap of connection objects, the
`waitingClients` map (correlation identity to connection), the Redis
store, the ordered log of bus publications, and a count of broker acks. -/
@[ext]
structure ServerSt where
  conns : SessionId → Option Conn
  waitingClients : String → Option SessionId
  redis : RStore
  published : List Publication
  acks : Nat

/-- JavaScript `Map.set`. -/
def mset (m : String → Option SessionId) (k : String) (v : SessionId) :
    String → Option SessionId :=
  fun k' => if k' = k then some v else m k'

/-- JavaScript `Map.delete`. -/
def mdel (m : String → Option SessionId) (k : String) :
    String → Option SessionId :=
  fun k' => if k' = k then none else m k'

/-- Replace the connection object stored at `sid`. -/
def setConn (st : ServerSt) (sid : SessionId) (c : Conn) : ServerSt :=
  { st with conns := fun s => if s = sid then some c else st.conns s }

/-- The `JOBS_EXCHANGE` constant of the server. -/
def JOBS_EXCHANGE : String := "aurasign_pipeline"

/-- The `RESULTS_QUEUE` constant of the server, used as `replyTo`. -/
def RESULTS_QUEUE : String := "aurasign_results_to_nodejs"

/-- The `handleResultMessage` consumer: ack, look the correlation identity
up in `waitingClients`, and when the client exists and its socket is open,
send the message content verbatim and delete the registry entry. -/
def handleResultMessage (correlationId content : String) (st0 : ServerSt) :
    ServerSt :=
  let st := { st0 with acks := st0.acks + 1 }
  match st.waitingClients correlationId with
  | none => st
  | some sid =>
    match st.conns sid with
    | none => st
    | some client =>
      if client.isOpen then
        { st with
          conns := fun s =>
            if s = sid then
              some { client with sent := client.sent ++ [OutFrame.raw content] }
            else st.conns s,
          waitingClients := mdel st.waitingClients correlationId }
      else st

/-- The `handleDeadLetterMessage` consumer: ack, look the identity up, and
when the client exists and is open, send the fallback frame built from the
failed job's `sentence` field and delete the registry entry. -/
def handleDeadLetterMessage (correlationId sentence : String) (st0 : ServerSt) :
    ServerSt :=
  let st := { st0 with acks := st0.acks + 1 }
  match st.waitingClients correlationId with
  | none => st
  | some sid =>
    match st.conns sid with
    | none => st
    | some client =>
      if client.isOpen then
        { st with
          conns := fun s =>
            if s = sid then
              some { client with sent := client.sent ++
                [OutFrame.fallback
                  ("Audio unavailable. Translation: \"" ++ sentence ++ "\"")
                  "Error"] }
            else st.conns s,
          waitingClients := mdel st.waitingClients correlationId }
      else st

/-- The `handleAggregationNotification` consumer: read the full field set
under `job:<id>`, and when both `raw_gloss` and `dominant_emotion` are
present, publish the merged payload (with `user_tone` defaulted through
JavaScript `||` to `"Casual"`) to the `gemini_task` routing key with the
same correlation identity and `replyTo`, then delete the key; otherwise do
nothing. Ack in every case. -/
def handleAggregationNotification (correlationId : String)
    (replyTo : Option String) (st0 : ServerSt) : ServerSt :=
  let redisKey := "job:" ++ correlationId
  let jobParts := hGetAll st0.redis redisKey
  let st : ServerSt :=
    match jobParts "raw_gloss", jobParts "dominant_emotion" with
    | some rawGloss, some dominantEmotion =>
      { st0 with
        published := st0.published ++
          [{ exchange := JOBS_EXCHANGE
             routingKey := "gemini_task"
             body := PublishBody.geminiJob rawGloss dominantEmotion
               (jsOrS (jobParts "user_tone") "Casual")
             correlationId := correlationId
             replyTo := replyTo }],
        redis := rdel st0.redis redisKey }
    | _, _ => st0
  { st with acks := st.acks + 1 }

/-- An inbound client frame, after `JSON.parse`: an append frame carrying a
landmark batch, or an end-of-turn frame with an optional tone. -/
inductive ClientFrame where
  | signing_data (sequence : Batch)
  | end_of_sentence (tone : Option String)

/-- The `ws.on('message')` handler for session `sid`. `freshId` stands for
the `uuidv4()` value drawn in the `end_of_sentence` branch. An append
frame pushes its batch onto the session's buffer. An end-of-turn frame,
when the buffer is non-empty, registers the fresh identity, seeds Redis
with the user tone (defaulted through JavaScript `||` to `"Casual"`), and
publishes the job to `recognition_task` with `replyTo` the results queue;
in every case it then resets the buffer to empty. -/
def handleClientMessage (sid : SessionId) (freshId : String)
    (frame : ClientFrame) (st : ServerSt) : ServerSt :=
  match st.conns sid with
  | none => st
  | some ws =>
    match frame with
    | ClientFrame.signing_data seq =>
      setConn st sid
        { ws with landmarkSequences := ws.landmarkSequences ++ [seq] }
    | ClientFrame.end_of_sentence tone =>
      let st1 : ServerSt :=
        if ws.landmarkSequences.length > 0 then
          let userTone := jsOrS tone "Casual"
          { st with
            waitingClients := mset st.waitingClients freshId sid,
            redis := hSet st.redis ("job:" ++ freshId) "user_tone" userTone,
            published := st.published ++
              [{ exchange := JOBS_EXCHANGE
                 routingKey := "recognition_task"
                 body := PublishBody.recognitionJob ws.landmarkSequences userTone
                 correlationId := freshId
                 replyTo := some RESULTS_QUEUE }] }
        else st
      setConn st1 sid { ws with landmarkSequences := [] }

/-- Process a list of client frames in arrival order on one session. -/
def runFrames (sid : SessionId) (freshId : String) (frames : List ClientFrame)
    (st : ServerSt) : ServerSt :=
  frames.foldl (fun s f => handleClientMessage sid freshId f s) st

/-- An upstream worker writing its field directly into the shared store
(Redis `HSET` under `job:<id>`), as the recognition and emotion workers do. -/
def workerWrite (st : ServerSt) (correlationId field value : String) :
    ServerSt :=
  { st with redis := hSet st.redis ("job:" ++ correlationId) field value }

/-- A fresh open connection with an empty buffer, for concrete scenarios. -/
def wConn : Conn := { isOpen := true, landmarkSequences := [], sent := [] }

/-- A connection whose socket is no longer open. -/
def wConnClosed : Conn := { isOpen := false, landmarkSequences := [], sent := [] }

/-- A server state with one fresh open connection (id 0) and nothing else. -/
def wSt : ServerSt :=
  { conns := fun s => if s = 0 then some wConn else none
    waitingClients := fun _ => none
    redis := fun _ => none
    published := []
    acks := 0 }

/-- A hash holding only the pre-seeded tone, as after job submission. -/
def wHash : RHash := fun f => if f = "user_tone" then some "Formal" else none

/-- A server state whose Redis holds the seeded record for job `j`. -/
def wStRedis : ServerSt :=
  { conns := fun _ => none
    waitingClients := fun _ => none
    redis := fun k => if k = "job:j" then some wHash else none
    published := []
    acks := 0 }

/-- A state where identity `x` is registered to connection 0. -/
def wStReg (c : Conn) : ServerSt :=
  { conns := fun s => if s = 0 then some c else none
    waitingClients := fun k => if k = "x" then some 0 else none
    redis := fun _ => none
    published := []
    acks := 0 }

/-- A hash with both worker fields present but no stored tone. -/
def wHashNoTone : RHash :=
  fun f => if f = "raw_gloss" then some "HELLO" else
    if f = "dominant_emotion" then some "happy" else none

/-- A server state whose Redis record for job `j` lacks `user_tone`. -/
def wStNoTone : ServerSt :=
  { conns := fun _ => none
    waitingClients := fun _ => none
    redis := fun k => if k = "job:j" then some wHashNoTone else none
    published := []
    acks := 0 }

/-- The first scenario batch, `[[0.1, 0.2, 0.0, 1.0]]`. -/
def sampleBatch1 : Batch := [[(1 : ℚ)/10, 2/10, 0, 1]]

/-- The second scenario batch, `[[0.3, 0.4, 0.0, 1.0]]`. -/
def sampleBatch2 : Batch := [[(3 : ℚ)/10, 4/10, 0, 1]]

/-- An open connection whose buffer already holds one batch. -/
def wConnBuf : Conn :=
  { isOpen := true, landmarkSequences := [sampleBatch1], sent := [] }

/-- A server state with one open connection (id 0) holding a batch. -/
def wStBuf : ServerSt :=
  { conns := fun s => if s = 0 then some wConnBuf else none
    waitingClients := fun _ => none
    redis := fun _ => none
    published := []
    acks := 0 }

end AuraSign

namespace AuraSign

theorem hsetH_self (h : RHash) (f v : String) : hsetH h f v f = some v := by
  simp [hsetH]

theorem hsetH_other (h : RHash) (f v f' : String) (hne : f' ≠ f) :
    hsetH h f v f' = h f' := by
  simp [hsetH, hne]

theorem hSet_self (s : RStore) (k f v : String) :
    hSet s k f v k = some (hsetH ((s k).getD emptyH) f v) := by
  simp [hSet]

theorem hSet_other (s : RStore) (k f v k' : String) (hne : k' ≠ k) :
    hSet s k f v k' = s k' := by
  simp [hSet, hne]

theorem workerWrite_redis_self (st : ServerSt) (id f v : String) :
    (workerWrite st id f v).redis ("job:" ++ id) =
      some (hsetH ((st.redis ("job:" ++ id)).getD emptyH) f v) := by
  simp [workerWrite, hSet]

/-- When both required fields are present under the job key, one
notification publishes the merged payload and deletes the record. -/
theorem aggregation_forwards (st : ServerSt) (id rg de ut : String)
    (replyTo : Option String) (h : RHash)
    (hrec : st.redis ("job:" ++ id) = some h)
    (hrg : h "raw_gloss" = some rg) (hde : h "dominant_emotion" = some de)
    (hut : jsOrS (h "user_tone") "Casual" = ut) :
    handleAggregationNotification id replyTo st =
      { st with
        published := st.published ++
          [{ exchange := JOBS_EXCHANGE
             routingKey := "gemini_task"
             body := PublishBody.geminiJob rg de ut
             correlationId := id
             replyTo := replyTo }],
        redis := rdel st.redis ("job:" ++ id),
        acks := st.acks + 1 } := by
  unfold handleAggregationNotification
  simp [hGetAll, hrec, hrg, hde, hut]

/-- When a required field is missing under the job key, a notification
only acks. -/
theorem aggregation_waits (st : ServerSt) (id : String)
    (replyTo : Option String)
    (h : hGetAll st.redis ("job:" ++ id) "raw_gloss" = none ∨
      hGetAll st.redis ("job:" ++ id) "dominant_emotion" = none) :
    handleAggregationNotification id replyTo st =
      { st with acks := st.acks + 1 } := by
  unfold handleAggregationNotification
  rcases h with h | h
  · simp [h]
  · simp [h]

theorem setConn_conns_self (st : ServerSt) (sid : SessionId) (c : Conn) :
    (setConn st sid c).conns sid = some c := by
  simp [setConn]

theorem setConn_conns_other (st : ServerSt) (sid : SessionId) (c : Conn)
    (sid' : SessionId) (h : sid' ≠ sid) :
    (setConn st sid c).conns sid' = st.conns sid' := by
  simp [setConn, h]

theorem setConn_published (st : ServerSt) (sid : SessionId) (c : Conn) :
    (setConn st sid c).published = st.published := rfl

theorem setConn_waitingClients (st : ServerSt) (sid : SessionId) (c : Conn) :
    (setConn st sid c).waitingClients = st.waitingClients := rfl

theorem setConn_redis (st : ServerSt) (sid : SessionId) (c : Conn) :
    (setConn st sid c).redis = st.redis := rfl

theorem setConn_setConn (st : ServerSt) (sid : SessionId) (c1 c2 : Conn) :
    setConn (setConn st sid c1) sid c2 = setConn st sid c2 := by
  apply ServerSt.ext
  · funext s
    by_cases h : s = sid <;> simp [setConn, h]
  · rfl
  · rfl
  · rfl
  · rfl

/-- An append frame only pushes its batch onto the session's buffer. -/
theorem signing_step (st : ServerSt) (sid : SessionId) (c : Conn)
    (freshId : String) (seq : Batch) (hconn : st.conns sid = some c) :
    handleClientMessage sid freshId (ClientFrame.signing_data seq) st =
      setConn st sid
        { c with landmarkSequences := c.landmarkSequences ++ [seq] } := by
  unfold handleClientMessage
  simp [hconn]

/-- End-of-turn on a non-empty buffer: register, seed Redis, publish the
job, then reset the buffer. -/
theorem end_of_sentence_nonempty (st : ServerSt) (sid : SessionId) (c : Conn)
    (freshId : String) (tone : Option String) (hconn : st.conns sid = some c)
    (hne : c.landmarkSequences ≠ []) :
    handleClientMessage sid freshId (ClientFrame.end_of_sentence tone) st =
      setConn
        { st with
          waitingClients := mset st.waitingClients freshId sid,
          redis := hSet st.redis ("job:" ++ freshId) "user_tone"
            (jsOrS tone "Casual"),
          published := st.published ++
            [{ exchange := JOBS_EXCHANGE
               routingKey := "recognition_task"
               body := PublishBody.recognitionJob c.landmarkSequences
                 (jsOrS tone "Casual")
               correlationId := freshId
               replyTo := some RESULTS_QUEUE }] }
        sid { c with landmarkSequences := [] } := by
  unfold handleClientMessage
  simp [hconn, List.length_pos.mpr hne]

/-- End-of-turn on an empty buffer: only the buffer reset happens. -/
theorem end_of_sentence_empty (st : ServerSt) (sid : SessionId) (c : Conn)
    (freshId : String) (tone : Option String) (hconn : st.conns sid = some c)
    (hemp : c.landmarkSequences = []) :
    handleClientMessage sid freshId (ClientFrame.end_of_sentence tone) st =
      setConn st sid { c with landmarkSequences := [] } := by
  unfold handleClientMessage
  simp [hconn, hemp]

/-- A run of append frames appends their batches to the buffer in arrival
order and changes nothing else. -/
theorem runFrames_signing (sid : SessionId) (freshId : String)
    (batches : List Batch) (st : ServerSt) (c : Conn)
    (hconn : st.conns sid = some c) :
    runFrames sid freshId (batches.map ClientFrame.signing_data) st =
      setConn st sid
        { c with landmarkSequences := c.landmarkSequences ++ batches } := by
  induction batches generalizing st c with
  | nil =>
    simp only [List.map_nil, runFrames, List.foldl_nil, List.append_nil]
    apply ServerSt.ext
    · funext s
      by_cases h : s = sid
      · subst h
        simp [setConn, hconn]
      · simp [setConn, h]
    · rfl
    · rfl
    · rfl
    · rfl
  | cons b bs ih =>
    simp only [List.map_cons, runFrames, List.foldl_cons]
    rw [signing_step st sid c freshId b hconn]
    have hrest := ih
      (setConn st sid { c with landmarkSequences := c.landmarkSequences ++ [b] })
      { c with landmarkSequences := c.landmarkSequences ++ [b] }
      (setConn_conns_self _ _ _)
    simp only [runFrames] at hrest
    rw [hrest, setConn_setConn]
    simp

end AuraSign

namespace AuraSign

/-- Claim C1: for every session, for every sequence of append frames
followed by one end-of-turn frame, if at least one append frame arrived
then exactly one job is published whose buffer is the appended batches in
arrival order; if none arrived, no job is published; and in both cases the
session buffer is empty immediately afterwards. -/
theorem c1_gateway_turn (batches : List Batch) (tone : Option String)
    (sid : SessionId) (freshId : String) (st0 : ServerSt) (c0 : Conn)
    (hconn : st0.conns sid = some c0) (hbuf : c0.landmarkSequences = []) :
    (runFrames sid freshId
        (batches.map ClientFrame.signing_data ++
          [ClientFrame.end_of_sentence tone]) st0).published =
      st0.published ++
        (if batches = [] then [] else
          [{ exchange := JOBS_EXCHANGE
             routingKey := "recognition_task"
             body := PublishBody.recognitionJob batches (jsOrS tone "Casual")
             correlationId := freshId
             replyTo := some RESULTS_QUEUE }]) ∧
    (runFrames sid freshId
        (batches.map ClientFrame.signing_data ++
          [ClientFrame.end_of_sentence tone]) st0).conns sid =
      some { c0 with landmarkSequences := [] } := by
  have hsplit : runFrames sid freshId
      (batches.map ClientFrame.signing_data ++
        [ClientFrame.end_of_sentence tone]) st0 =
      handleClientMessage sid freshId (ClientFrame.end_of_sentence tone)
        (runFrames sid freshId (batches.map ClientFrame.signing_data) st0) := by
    simp [runFrames, List.foldl_append]
  rw [hsplit, runFrames_signing sid freshId batches st0 c0 hconn, hbuf]
  by_cases hb : batches = []
  · subst hb
    rw [end_of_sentence_empty _ sid { c0 with landmarkSequences := [] ++ [] }
      freshId tone (setConn_conns_self _ _ _) (by simp)]
    rw [setConn_setConn]
    refine ⟨?_, setConn_conns_self _ _ _⟩
    simp [setConn]
  · rw [end_of_sentence_nonempty _ sid
      { c0 with landmarkSequences := [] ++ batches } freshId tone
      (setConn_conns_self _ _ _) (by simpa using hb)]
    constructor
    · simp [setConn, hb]
    · exact setConn_conns_self _ _ _

theorem c1_gateway_turn_witness :
    wSt.conns 0 = some wConn ∧ wConn.landmarkSequences = [] ∧
    ((runFrames 0 "j"
        ([sampleBatch1].map ClientFrame.signing_data ++
          [ClientFrame.end_of_sentence (some "Formal")]) wSt).published =
      wSt.published ++
        (if [sampleBatch1] = [] then [] else
          [{ exchange := JOBS_EXCHANGE
             routingKey := "recognition_task"
             body := PublishBody.recognitionJob [sampleBatch1]
               (jsOrS (some "Formal") "Casual")
             correlationId := "j"
             replyTo := some RESULTS_QUEUE }]) ∧
    (runFrames 0 "j"
        ([sampleBatch1].map ClientFrame.signing_data ++
          [ClientFrame.end_of_sentence (some "Formal")]) wSt).conns 0 =
      some { wConn with landmarkSequences := [] }) :=
  ⟨rfl, rfl,
    c1_gateway_turn [sampleBatch1] (some "Formal") 0 "j" wSt wConn rfl rfl⟩

end AuraSign

namespace AuraSign

/-- Claim C2: with only the classification field written, a notification
publishes nothing and leaves the stored record (and the whole store) in
place; once the derived-attribute field is also written, a notification
publishes exactly one merged payload carrying both fields plus the
pre-seeded tone, with the same correlation identity and reply destination,
and the stored record is absent afterwards. -/
theorem c2_barrier_two_phase (st0 : ServerSt) (id rg de t : String)
    (replyTo : Option String) (h0 : RHash)
    (hrec : st0.redis ("job:" ++ id) = some h0)
    (htone : h0 "user_tone" = some t) (htne : t ≠ "")
    (hde0 : h0 "dominant_emotion" = none) :
    let stA := workerWrite st0 id "raw_gloss" rg
    let stB := handleAggregationNotification id replyTo stA
    let stC := workerWrite stB id "dominant_emotion" de
    let stD := handleAggregationNotification id replyTo stC
    stB.published = st0.published ∧
    stB.redis = stA.redis ∧
    stB.redis ("job:" ++ id) = some (hsetH h0 "raw_gloss" rg) ∧
    stD.published = st0.published ++
      [{ exchange := JOBS_EXCHANGE
         routingKey := "gemini_task"
         body := PublishBody.geminiJob rg de t
         correlationId := id
         replyTo := replyTo }] ∧
    stD.redis ("job:" ++ id) = none := by
  intro stA stB stC stD
  have hA : stA.redis ("job:" ++ id) = some (hsetH h0 "raw_gloss" rg) := by
    simp [stA, workerWrite, hSet, hrec]
  have hAde : (hsetH h0 "raw_gloss" rg) "dominant_emotion" = none := by
    rw [hsetH_other _ _ _ _ (by decide)]
    exact hde0
  have hB : stB = { stA with acks := stA.acks + 1 } := by
    unfold stB handleAggregationNotification
    simp [hGetAll, hA, hAde]
  have hCred : stC.redis ("job:" ++ id) =
      some (hsetH (hsetH h0 "raw_gloss" rg) "dominant_emotion" de) := by
    simp [stC, workerWrite, hSet, hB, stA, hrec]
  have hrg2 : hsetH (hsetH h0 "raw_gloss" rg) "dominant_emotion" de "raw_gloss"
      = some rg := by
    rw [hsetH_other _ _ _ _ (by decide), hsetH_self]
  have hde2 : hsetH (hsetH h0 "raw_gloss" rg) "dominant_emotion" de
      "dominant_emotion" = some de := hsetH_self _ _ _
  have hut2 : hsetH (hsetH h0 "raw_gloss" rg) "dominant_emotion" de "user_tone"
      = some t := by
    rw [hsetH_other _ _ _ _ (by decide), hsetH_other _ _ _ _ (by decide)]
    exact htone
  have hD : stD = { stC with
      published := stC.published ++
        [{ exchange := JOBS_EXCHANGE
           routingKey := "gemini_task"
           body := PublishBody.geminiJob rg de t
           correlationId := id
           replyTo := replyTo }],
      redis := rdel stC.redis ("job:" ++ id),
      acks := stC.acks + 1 } := by
    unfold stD handleAggregationNotification
    simp [hGetAll, hCred, hrg2, hde2, hut2, jsOrS, htne]
  refine ⟨by simp [hB, stA, workerWrite], by simp [hB], ?_, ?_, ?_⟩
  · rw [hB]
    exact hA
  · simp [hD, stC, workerWrite, hB, stA]
  · simp [hD, rdel]

theorem c2_barrier_two_phase_witness :
    wStRedis.redis ("job:" ++ "j") = some wHash ∧
    wHash "user_tone" = some "Formal" ∧ "Formal" ≠ "" ∧
    wHash "dominant_emotion" = none ∧
    (let stA := workerWrite wStRedis "j" "raw_gloss" "HELLO"
     let stB := handleAggregationNotification "j" (some "q") stA
     let stC := workerWrite stB "j" "dominant_emotion" "happy"
     let stD := handleAggregationNotification "j" (some "q") stC
     stB.published = wStRedis.published ∧
     stB.redis = stA.redis ∧
     stB.redis ("job:" ++ "j") = some (hsetH wHash "raw_gloss" "HELLO") ∧
     stD.published = wStRedis.published ++
       [{ exchange := JOBS_EXCHANGE
          routingKey := "gemini_task"
          body := PublishBody.geminiJob "HELLO" "happy" "Formal"
          correlationId := "j"
          replyTo := some "q" }] ∧
     stD.redis ("job:" ++ "j") = none) :=
  ⟨rfl, rfl, by decide, rfl,
    c2_barrier_two_phase wStRedis "j" "HELLO" "happy" "Formal" (some "q")
      wHash rfl rfl (by decide) rfl⟩

end AuraSign

namespace AuraSign

/-- Claim C3: the barrier's merge is idempotent — after the record has been
forwarded and deleted, handling the same completion notification again
publishes nothing and changes neither the store, the registry, nor any
connection. -/
theorem c3_merge_idempotent_after_delete (st : ServerSt) (id : String)
    (replyTo : Option String) (h : st.redis ("job:" ++ id) = none) :
    (handleAggregationNotification id replyTo st).published = st.published ∧
    (handleAggregationNotification id replyTo st).redis = st.redis ∧
    (handleAggregationNotification id replyTo st).waitingClients =
      st.waitingClients ∧
    (handleAggregationNotification id replyTo st).conns = st.conns := by
  unfold handleAggregationNotification
  simp [hGetAll, h, emptyH]

theorem c3_merge_idempotent_after_delete_witness :
    wSt.redis ("job:" ++ "j") = none ∧
    ((handleAggregationNotification "j" (some "q") wSt).published =
        wSt.published ∧
      (handleAggregationNotification "j" (some "q") wSt).redis = wSt.redis ∧
      (handleAggregationNotification "j" (some "q") wSt).waitingClients =
        wSt.waitingClients ∧
      (handleAggregationNotification "j" (some "q") wSt).conns = wSt.conns) :=
  ⟨rfl, c3_merge_idempotent_after_delete wSt "j" (some "q") rfl⟩

/-- Claim C4: the barrier is order-independent — writing the classification
field then the derived-attribute field followed by two notifications
produces exactly the same final state, and the same single forwarded
merged payload, as writing the two fields in the opposite order followed
by two notifications. -/
theorem c4_barrier_order_independent (st0 : ServerSt) (id rg de t : String)
    (replyTo : Option String) (h0 : RHash)
    (hrec : st0.redis ("job:" ++ id) = some h0)
    (htone : h0 "user_tone" = some t) (htne : t ≠ "") :
    let stAB := handleAggregationNotification id replyTo
      (handleAggregationNotification id replyTo
        (workerWrite (workerWrite st0 id "raw_gloss" rg)
          id "dominant_emotion" de))
    let stBA := handleAggregationNotification id replyTo
      (handleAggregationNotification id replyTo
        (workerWrite (workerWrite st0 id "dominant_emotion" de)
          id "raw_gloss" rg))
    stAB = stBA ∧
    stAB.published = st0.published ++
      [{ exchange := JOBS_EXCHANGE
         routingKey := "gemini_task"
         body := PublishBody.geminiJob rg de t
         correlationId := id
         replyTo := replyTo }] := by
  intro stAB stBA
  have hABr : (workerWrite (workerWrite st0 id "raw_gloss" rg)
      id "dominant_emotion" de).redis ("job:" ++ id) =
      some (hsetH (hsetH h0 "raw_gloss" rg) "dominant_emotion" de) := by
    simp [workerWrite, hSet, hrec]
  have hBAr : (workerWrite (workerWrite st0 id "dominant_emotion" de)
      id "raw_gloss" rg).redis ("job:" ++ id) =
      some (hsetH (hsetH h0 "dominant_emotion" de) "raw_gloss" rg) := by
    simp [workerWrite, hSet, hrec]
  have hutAB : jsOrS ((hsetH (hsetH h0 "raw_gloss" rg) "dominant_emotion" de)
      "user_tone") "Casual" = t := by
    rw [hsetH_other _ _ _ _ (by decide), hsetH_other _ _ _ _ (by decide),
      htone]
    simp [jsOrS, htne]
  have hutBA : jsOrS ((hsetH (hsetH h0 "dominant_emotion" de) "raw_gloss" rg)
      "user_tone") "Casual" = t := by
    rw [hsetH_other _ _ _ _ (by decide), hsetH_other _ _ _ _ (by decide),
      htone]
    simp [jsOrS, htne]
  have h1AB := aggregation_forwards _ id rg de t replyTo _ hABr
    (by rw [hsetH_other _ _ _ _ (by decide), hsetH_self])
    (hsetH_self _ _ _) hutAB
  have h1BA := aggregation_forwards _ id rg de t replyTo _ hBAr
    (hsetH_self _ _ _)
    (by rw [hsetH_other _ _ _ _ (by decide), hsetH_self]) hutBA
  have h2AB : stAB = { (handleAggregationNotification id replyTo
      (workerWrite (workerWrite st0 id "raw_gloss" rg)
        id "dominant_emotion" de)) with
      acks := (handleAggregationNotification id replyTo
        (workerWrite (workerWrite st0 id "raw_gloss" rg)
          id "dominant_emotion" de)).acks + 1 } := by
    apply aggregation_waits
    left
    rw [h1AB]
    simp [hGetAll, rdel, emptyH]
  have h2BA : stBA = { (handleAggregationNotification id replyTo
      (workerWrite (workerWrite st0 id "dominant_emotion" de)
        id "raw_gloss" rg)) with
      acks := (handleAggregationNotification id replyTo
        (workerWrite (workerWrite st0 id "dominant_emotion" de)
          id "raw_gloss" rg)).acks + 1 } := by
    apply aggregation_waits
    left
    rw [h1BA]
    simp [hGetAll, rdel, emptyH]
  constructor
  · rw [h2AB, h2BA, h1AB, h1BA]
    apply ServerSt.ext
    · simp [workerWrite]
    · simp [workerWrite]
    · funext k'
      by_cases hkk : k' = "job:" ++ id
      · simp [rdel, hkk]
      · simp [rdel, hkk, workerWrite, hSet]
    · simp [workerWrite]
    · simp [workerWrite]
  · rw [h2AB, h1AB]
    simp [workerWrite]

theorem c4_barrier_order_independent_witness :
    wStRedis.redis ("job:" ++ "j") = some wHash ∧
    wHash "user_tone" = some "Formal" ∧ "Formal" ≠ "" ∧
    (let stAB := handleAggregationNotification "j" (some "q")
      (handleAggregationNotification "j" (some "q")
        (workerWrite (workerWrite wStRedis "j" "raw_gloss" "HELLO")
          "j" "dominant_emotion" "happy"))
     let stBA := handleAggregationNotification "j" (some "q")
      (handleAggregationNotification "j" (some "q")
        (workerWrite (workerWrite wStRedis "j" "dominant_emotion" "happy")
          "j" "raw_gloss" "HELLO"))
     stAB = stBA ∧
     stAB.published = wStRedis.published ++
       [{ exchange := JOBS_EXCHANGE
          routingKey := "gemini_task"
          body := PublishBody.geminiJob "HELLO" "happy" "Formal"
          correlationId := "j"
          replyTo := some "q" }]) :=
  ⟨rfl, rfl, by decide,
    c4_barrier_order_independent wStRedis "j" "HELLO" "happy" "Formal"
      (some "q") wHash rfl rfl (by decide)⟩

end AuraSign

namespace AuraSign

/-- Claim C5: a dead-letter message whose identity is registered to an open
session writes exactly one failure frame to that session — fallback text
built around the payload's sentence, conversation tone Error — removes the
identity from the registry, changes no other session or registry entry,
and publishes nothing. -/
theorem c5_dead_letter_failure_frame (st : ServerSt) (id sentence : String)
    (sid : SessionId) (c : Conn) (hreg : st.waitingClients id = some sid)
    (hconn : st.conns sid = some c) (hopen : c.isOpen = true) :
    (handleDeadLetterMessage id sentence st).conns sid =
      some { c with sent := c.sent ++
        [OutFrame.fallback
          ("Audio unavailable. Translation: \"" ++ sentence ++ "\"")
          "Error"] } ∧
    (∀ sid', sid' ≠ sid →
      (handleDeadLetterMessage id sentence st).conns sid' = st.conns sid') ∧
    (handleDeadLetterMessage id sentence st).waitingClients id = none ∧
    (∀ id', id' ≠ id →
      (handleDeadLetterMessage id sentence st).waitingClients id' =
        st.waitingClients id') ∧
    (handleDeadLetterMessage id sentence st).published = st.published := by
  unfold handleDeadLetterMessage
  simp [hreg, hconn, hopen, mdel]
  constructor
  · intro sid' hne heq
    exact absurd heq hne
  · intro id' hne heq
    exact absurd heq hne

theorem c5_dead_letter_failure_frame_witness :
    (wStReg wConn).waitingClients "x" = some 0 ∧
    (wStReg wConn).conns 0 = some wConn ∧ wConn.isOpen = true ∧
    ((handleDeadLetterMessage "x" "hello" (wStReg wConn)).conns 0 =
      some { wConn with sent := wConn.sent ++
        [OutFrame.fallback
          ("Audio unavailable. Translation: \"" ++ "hello" ++ "\"")
          "Error"] } ∧
    (∀ sid', sid' ≠ 0 →
      (handleDeadLetterMessage "x" "hello" (wStReg wConn)).conns sid' =
        (wStReg wConn).conns sid') ∧
    (handleDeadLetterMessage "x" "hello" (wStReg wConn)).waitingClients "x" =
      none ∧
    (∀ id', id' ≠ "x" →
      (handleDeadLetterMessage "x" "hello" (wStReg wConn)).waitingClients id' =
        (wStReg wConn).waitingClients id') ∧
    (handleDeadLetterMessage "x" "hello" (wStReg wConn)).published =
      (wStReg wConn).published) :=
  ⟨rfl, rfl, rfl,
    c5_dead_letter_failure_frame (wStReg wConn) "x" "hello" 0 wConn
      rfl rfl rfl⟩

/-- Claim C6 is corrected: the code removes a registered identity's entry
on a result message only when the registered session's connection is open.
In this concrete state, identity x is registered to a connection that is
not open, and after processing a result message for x the entry is still
present, contradicting the claim that every registered identity's entry is
removed at result processing. -/
theorem c6_registry_removal_counterexample :
    (wStReg wConnClosed).waitingClients "x" = some 0 ∧
    (handleResultMessage "x" "payload" (wStReg wConnClosed)).waitingClients "x"
      = some 0 := by
  constructor
  · rfl
  · decide

/-- Claim C6 as amended: a result message whose identity is registered
removes the registry entry exactly when the registered session's
connection is open; when it is not open, the entry is left in place. No
other identity's entry ever changes, so an entry is removed at most once. -/
theorem c6_registry_removal_amended (st : ServerSt) (id content : String)
    (sid : SessionId) (c : Conn) (hreg : st.waitingClients id = some sid)
    (hconn : st.conns sid = some c) :
    (handleResultMessage id content st).waitingClients id =
      (if c.isOpen then none else some sid) ∧
    (∀ id', id' ≠ id →
      (handleResultMessage id content st).waitingClients id' =
        st.waitingClients id') := by
  unfold handleResultMessage
  by_cases hopen : c.isOpen
  · simp [hreg, hconn, hopen, mdel]
    intro id' hne heq
    exact absurd heq hne
  · simp [hreg, hconn, hopen]

theorem c6_registry_removal_amended_witness :
    (wStReg wConn).waitingClients "x" = some 0 ∧
    (wStReg wConn).conns 0 = some wConn ∧
    ((handleResultMessage "x" "payload" (wStReg wConn)).waitingClients "x" =
      (if wConn.isOpen then none else some 0) ∧
    (∀ id', id' ≠ "x" →
      (handleResultMessage "x" "payload" (wStReg wConn)).waitingClients id' =
        (wStReg wConn).waitingClients id')) :=
  ⟨rfl, rfl,
    c6_registry_removal_amended (wStReg wConn) "x" "payload" 0 wConn rfl rfl⟩

/-- Claim C7: a result message whose identity has no registry entry only
acknowledges: sessions, registry, store and publish log are all
unchanged, and no error is raised (the handler is total). -/
theorem c7_unregistered_result_noop (st : ServerSt) (id content : String)
    (h : st.waitingClients id = none) :
    handleResultMessage id content st = { st with acks := st.acks + 1 } := by
  unfold handleResultMessage
  simp [h]

theorem c7_unregistered_result_noop_witness :
    wSt.waitingClients "z" = none ∧
    handleResultMessage "z" "payload" wSt = { wSt with acks := wSt.acks + 1 } :=
  ⟨rfl, c7_unregistered_result_noop wSt "z" "payload" rfl⟩

end AuraSign

namespace AuraSign

/-- Claim C8: two append frames with batches `[[0.1,0.2,0.0,1.0]]` and
`[[0.3,0.4,0.0,1.0]]` followed by an end-of-turn frame with tone Formal
produce exactly one publish to the first stage's routing key with the
two-element buffer and tone Formal, register the fresh identity, and leave
the shared store holding exactly the field user_tone Formal under that
identity. -/
theorem c8_two_batch_scenario (st0 : ServerSt) (sid : SessionId) (c0 : Conn)
    (freshId : String) (hconn : st0.conns sid = some c0)
    (hbuf : c0.landmarkSequences = [])
    (hredis : st0.redis ("job:" ++ freshId) = none) :
    let stf := runFrames sid freshId
      [ClientFrame.signing_data sampleBatch1,
       ClientFrame.signing_data sampleBatch2,
       ClientFrame.end_of_sentence (some "Formal")] st0
    stf.published = st0.published ++
      [{ exchange := JOBS_EXCHANGE
         routingKey := "recognition_task"
         body := PublishBody.recognitionJob [sampleBatch1, sampleBatch2]
           "Formal"
         correlationId := freshId
         replyTo := some RESULTS_QUEUE }] ∧
    stf.waitingClients freshId = some sid ∧
    ∃ h, stf.redis ("job:" ++ freshId) = some h ∧
      h "user_tone" = some "Formal" ∧
      ∀ f, f ≠ "user_tone" → h f = none := by
  intro stf
  have hsplit : stf =
      handleClientMessage sid freshId
        (ClientFrame.end_of_sentence (some "Formal"))
        (runFrames sid freshId
          ([sampleBatch1, sampleBatch2].map ClientFrame.signing_data) st0) :=
    rfl
  rw [hsplit, runFrames_signing sid freshId _ st0 c0 hconn, hbuf]
  rw [end_of_sentence_nonempty _ sid
    { c0 with landmarkSequences := [] ++ [sampleBatch1, sampleBatch2] }
    freshId (some "Formal") (setConn_conns_self _ _ _) (by simp)]
  have htone : jsOrS (some "Formal") "Casual" = "Formal" := by decide
  refine ⟨?_, ?_, ?_⟩
  · simp [setConn, htone]
  · simp [setConn, mset]
  · refine ⟨hsetH emptyH "user_tone" "Formal", ?_, hsetH_self _ _ _, ?_⟩
    · simp [setConn, htone, hSet, hredis]
    · intro f hf
      rw [hsetH_other _ _ _ _ hf]
      rfl

theorem c8_two_batch_scenario_witness :
    wSt.conns 0 = some wConn ∧ wConn.landmarkSequences = [] ∧
    wSt.redis ("job:" ++ "j") = none ∧
    (let stf := runFrames 0 "j"
      [ClientFrame.signing_data sampleBatch1,
       ClientFrame.signing_data sampleBatch2,
       ClientFrame.end_of_sentence (some "Formal")] wSt
    stf.published = wSt.published ++
      [{ exchange := JOBS_EXCHANGE
         routingKey := "recognition_task"
         body := PublishBody.recognitionJob [sampleBatch1, sampleBatch2]
           "Formal"
         correlationId := "j"
         replyTo := some RESULTS_QUEUE }] ∧
    stf.waitingClients "j" = some 0 ∧
    ∃ h, stf.redis ("job:" ++ "j") = some h ∧
      h "user_tone" = some "Formal" ∧
      ∀ f, f ≠ "user_tone" → h f = none) :=
  ⟨rfl, rfl, rfl, c8_two_batch_scenario wSt 0 wConn "j" rfl rfl rfl⟩

/-- Claim C9: a missing tone is substituted by the string Casual in both
places — an end-of-turn frame without a tone field creates a job whose
tone is Casual and seeds the store with user_tone Casual, and when the
barrier finds a complete record whose user_tone field is absent, the
forwarded merged payload carries user_tone Casual. -/
theorem c9_default_tone_casual :
    (∀ (st : ServerSt) (sid : SessionId) (c : Conn) (freshId : String),
      st.conns sid = some c → c.landmarkSequences ≠ [] →
      (handleClientMessage sid freshId (ClientFrame.end_of_sentence none)
          st).published =
        st.published ++
          [{ exchange := JOBS_EXCHANGE
             routingKey := "recognition_task"
             body := PublishBody.recognitionJob c.landmarkSequences "Casual"
             correlationId := freshId
             replyTo := some RESULTS_QUEUE }] ∧
      ∃ h, (handleClientMessage sid freshId (ClientFrame.end_of_sentence none)
          st).redis ("job:" ++ freshId) = some h ∧
        h "user_tone" = some "Casual") ∧
    (∀ (st : ServerSt) (id rg de : String) (replyTo : Option String)
        (h : RHash),
      st.redis ("job:" ++ id) = some h → h "raw_gloss" = some rg →
      h "dominant_emotion" = some de → h "user_tone" = none →
      (handleAggregationNotification id replyTo st).published =
        st.published ++
          [{ exchange := JOBS_EXCHANGE
             routingKey := "gemini_task"
             body := PublishBody.geminiJob rg de "Casual"
             correlationId := id
             replyTo := replyTo }]) := by
  constructor
  · intro st sid c freshId hconn hne
    rw [end_of_sentence_nonempty st sid c freshId none hconn hne]
    refine ⟨by simp [setConn, jsOrS], ?_⟩
    refine ⟨hsetH ((st.redis ("job:" ++ freshId)).getD emptyH) "user_tone"
      "Casual", ?_, hsetH_self _ _ _⟩
    simp [setConn, jsOrS, hSet]
  · intro st id rg de replyTo h hrec hrg hde hut
    rw [aggregation_forwards st id rg de "Casual" replyTo h hrec hrg hde
      (by rw [hut]; rfl)]

theorem c9_default_tone_casual_witness :
    (wStBuf.conns 0 = some wConnBuf ∧ wConnBuf.landmarkSequences ≠ [] ∧
      (handleClientMessage 0 "j" (ClientFrame.end_of_sentence none)
          wStBuf).published =
        wStBuf.published ++
          [{ exchange := JOBS_EXCHANGE
             routingKey := "recognition_task"
             body := PublishBody.recognitionJob wConnBuf.landmarkSequences
               "Casual"
             correlationId := "j"
             replyTo := some RESULTS_QUEUE }] ∧
      ∃ h, (handleClientMessage 0 "j" (ClientFrame.end_of_sentence none)
          wStBuf).redis ("job:" ++ "j") = some h ∧
        h "user_tone" = some "Casual") ∧
    (wStNoTone.redis ("job:" ++ "j") = some wHashNoTone ∧
      wHashNoTone "raw_gloss" = some "HELLO" ∧
      wHashNoTone "dominant_emotion" = some "happy" ∧
      wHashNoTone "user_tone" = none ∧
      (handleAggregationNotification "j" (some "q") wStNoTone).published =
        wStNoTone.published ++
          [{ exchange := JOBS_EXCHANGE
             routingKey := "gemini_task"
             body := PublishBody.geminiJob "HELLO" "happy" "Casual"
             correlationId := "j"
             replyTo := some "q" }]) :=
  ⟨⟨rfl, by decide,
     c9_default_tone_casual.1 wStBuf 0 wConnBuf "j" rfl (by decide)⟩,
   ⟨rfl, rfl, rfl, rfl,
     c9_default_tone_casual.2 wStNoTone "j" "HELLO" "happy" (some "q")
       wHashNoTone rfl rfl rfl rfl⟩⟩

/-- Claim C10: for a registered open session, the success frame written by
the result handler is the result message's content verbatim — for every
content string, even one that is not the documented success-frame JSON,
the connection receives exactly that string unparsed and unreshaped, and
no other session receives anything. -/
theorem c10_result_forwarded_verbatim (st : ServerSt) (id content : String)
    (sid : SessionId) (c : Conn) (hreg : st.waitingClients id = some sid)
    (hconn : st.conns sid = some c) (hopen : c.isOpen = true) :
    (handleResultMessage id content st).conns sid =
      some { c with sent := c.sent ++ [OutFrame.raw content] } ∧
    (∀ sid', sid' ≠ sid →
      (handleResultMessage id content st).conns sid' = st.conns sid') := by
  unfold handleResultMessage
  simp [hreg, hconn, hopen]
  intro sid' hne heq
  exact absurd heq hne

theorem c10_result_forwarded_verbatim_witness :
    (wStReg wConn).waitingClients "x" = some 0 ∧
    (wStReg wConn).conns 0 = some wConn ∧ wConn.isOpen = true ∧
    ((handleResultMessage "x" "not json at all" (wStReg wConn)).conns 0 =
      some { wConn with sent := wConn.sent ++
        [OutFrame.raw "not json at all"] } ∧
    (∀ sid', sid' ≠ 0 →
      (handleResultMessage "x" "not json at all" (wStReg wConn)).conns sid' =
        (wStReg wConn).conns sid')) :=
  ⟨rfl, rfl, rfl,
    c10_result_forwarded_verbatim (wStReg wConn) "x" "not json at all" 0 wConn
      rfl rfl rfl⟩

end AuraSign
